import Mathlib

/-!
# Presence-and-chat hub of the forum backend

A shallow embedding of `src/websocket.go` (`handleWebSocket`) and of
`broadcastOnlineUsers` in `src/chat.go`, followed by theorems about them.

Modelling decisions

* A `*websocket.Conn` is a handle identified by a natural number.
* `onlineUsers.users` (a Go `map[int]*websocket.Conn`) is an association list
  with one pair per key; its list order stands for the (unspecified) order in
  which `range` visits the map.
* Everything the handler does to the outside world is appended, in program
  order, to a trace of `Effect`s: lock operations on `onlineUsers`, `Close`,
  `WriteJSON`, `log.Printf` and the `INSERT` statement.
* What the outside world answers (the datastore, the clock, write results) is
  read from an `Env`; the theorems hold for every `Env`.
* A JSON number reaches the handler as the `float64` the decoder made of it;
  `float64OfInt` gives that value for an integer written in the frame.
* A handler goroutine is run on the list of results its successive
  `ReadJSON` calls return; when the list is exhausted the goroutine is blocked
  in `ReadJSON`.
-/

namespace Srco

/-! ## Data model -/

/-- Identity of a `*websocket.Conn`. -/
abbrev Conn := Nat

/-- The struct `ChatMessage` of `src/struct.go`. -/
structure ChatMessage where
  FromID : Int
  FromNick : String
  ToID : Int
  Content : String
  Timestamp : String
  deriving DecidableEq, Repr

/-- One element of `allUsers` in `broadcastOnlineUsers`: the map with keys
`"id"`, `"nickname"` and `"status"`. -/
structure UserEntry where
  id : Int
  nickname : String
  status : Bool
  deriving DecidableEq, Repr

/-- The three shapes of `map[string]interface{}` handed to `WriteJSON`. -/
inductive OutFrame where
  /-- The map with `"type": "userList"` and `"users"`. -/
  | userList (users : List UserEntry)
  /-- The map with `"type": "chat_message"` and `"message"`. -/
  | chatMessage (message : ChatMessage)
  /-- The map with `"type": "typing_status"`, `"from_id"` and `"is_typing"`. -/
  | typingStatus (from_id : Int) (is_typing : Bool)
  deriving DecidableEq, Repr

/-- Observable actions of the handler, in program order. -/
inductive Effect where
  /-- Call of `onlineUsers.Lock()`. -/
  | lock
  /-- Call of `onlineUsers.Unlock()`. -/
  | unlock
  /-- Call of `onlineUsers.RLock()`. -/
  | rlock
  /-- Call of `onlineUsers.RUnlock()`. -/
  | runlock
  /-- Call of `Close()` on a connection. -/
  | close (c : Conn)
  /-- Call of `WriteJSON` on a connection (whether or not it succeeds). -/
  | write (c : Conn) (frame : OutFrame)
  /-- Execution of `INSERT INTO chat_messages (from_id, to_id, content, created_at)`. -/
  | insert (from_id to_id : Int) (content : String)
  /-- Call of `log.Printf`. -/
  | log (text : String)
  deriving DecidableEq, Repr

/-- A value decoded by `encoding/json` into an `interface{}`. A JSON number is
decoded into a `float64`, and `num f` holds the value `f` of that `float64`
(every finite `float64` is a rational number), which is the number written in
the frame only when a `float64` can hold it: see `float64OfInt` for what the
decoder makes of an integer. -/
inductive JVal where
  | null
  | bool (b : Bool)
  | num (f : ℚ)
  | str (s : String)
  | arr (items : List JVal)
  | obj (fields : List (String × JVal))

/-- The anonymous struct `msg` that `ReadJSON` fills in. -/
structure Msg where
  msgType : String
  Content : JVal

/-- Outcome of one `conn.ReadJSON(&msg)`. -/
inductive ReadResult where
  /-- The call returned nil and filled in the message. -/
  | frame (msg : Msg)
  /-- The call returned an error; the flag is the value of
  `websocket.IsUnexpectedCloseError(err, CloseGoingAway, CloseAbnormalClosure)`. -/
  | error (unexpectedClose : Bool)

/-- A row of the table `chat_messages` as the `INSERT` writes it. -/
structure ChatRow where
  from_id : Int
  to_id : Int
  content : String
  deriving DecidableEq, Repr

/-- Answers of the outside world. -/
structure Env where
  /-- Result of `SELECT id, nickname FROM users ORDER BY nickname`: `none`
  when `db.Query` fails, else the rows, a row being `none` when its
  `rows.Scan` fails. -/
  allUsers : Option (List (Option (Int × String)))
  /-- Result of `SELECT nickname FROM users WHERE id = ?` followed by `Scan`:
  `none` on any error (no such row included). -/
  nickname : Int → Option String
  /-- Whether the `INSERT` succeeds. -/
  insertOk : Int → Int → String → Bool
  /-- Whether `WriteJSON` on the connection succeeds. -/
  writeOk : Conn → Bool
  /-- Value of `time.Now().Format(time.RFC3339)`. -/
  now : String

/-! ## The registry `onlineUsers.users` -/

/-- The map `onlineUsers.users`. -/
abbrev Registry := List (Int × Conn)

/-- The lookup `onlineUsers.users[uid]` with its `ok` flag. -/
def Registry.get (users : Registry) (uid : Int) : Option Conn :=
  match users with
  | [] => none
  | (k, c) :: rest => if k = uid then some c else Registry.get rest uid

/-- The builtin `delete(onlineUsers.users, uid)`. -/
def Registry.delete (users : Registry) (uid : Int) : Registry :=
  users.filter (fun e => !decide (e.1 = uid))

/-- The assignment `onlineUsers.users[uid] = conn`. -/
def Registry.set (users : Registry) (uid : Int) (conn : Conn) : Registry :=
  (uid, conn) :: Registry.delete users uid

/-- The entries stored under one key. -/
def Registry.entriesOf (users : Registry) (uid : Int) : List (Int × Conn) :=
  users.filter (fun e => decide (e.1 = uid))

/-- The state shared by all handlers. -/
structure World where
  /-- The map `onlineUsers.users`. -/
  users : Registry
  /-- The rows of table `chat_messages` inserted so far. -/
  chat_messages : List ChatRow
  /-- Everything done so far, oldest first. -/
  trace : List Effect

/-- Append effects to the trace. -/
def World.emit (w : World) (es : List Effect) : World :=
  { w with trace := w.trace ++ es }

/-- Control state of a handler after a step of its loop. -/
inductive Flow where
  /-- The loop goes on to the next `ReadJSON`. -/
  | next
  /-- The loop was left through `break`. -/
  | exit
  /-- A run-time panic unwinds the handler. -/
  | panicked
  deriving DecidableEq, Repr

/-! ## `broadcastOnlineUsers` (src/chat.go) -/

/-- The loop `for rows.Next()` of `broadcastOnlineUsers`. -/
def scanUsers (users : Registry) : List (Option (Int × String)) → List UserEntry
  | [] => []
  | none :: rows => scanUsers users rows
  | some (id, nickname) :: rows =>
      { id := id, nickname := nickname, status := (users.get id).isSome }
        :: scanUsers users rows

/-- The loop `for _, conn := range onlineUsers.users` of `broadcastOnlineUsers`. -/
def sendAll (env : Env) (message : OutFrame) : Registry → List Effect
  | [] => []
  | (_, conn) :: rest =>
      (if env.writeOk conn then [Effect.write conn message]
       else [Effect.write conn message, Effect.log "Error sending user list"])
        ++ sendAll env message rest

/-- The function `broadcastOnlineUsers`. -/
def broadcastOnlineUsers (env : Env) (w : World) : World :=
  match env.allUsers with
  | none =>
      w.emit [Effect.rlock, Effect.log "Error fetching users", Effect.runlock]
  | some rows =>
      let allUsers := scanUsers w.users rows
      let message := OutFrame.userList allUsers
      w.emit ([Effect.rlock] ++ sendAll env message w.users ++ [Effect.runlock])

/-! ## `handleWebSocket` (src/websocket.go) -/

/-- The single-value type assertion `.(float64)` on a map element: `none`
stands for the run-time panic raised when the element is absent (nil) or
holds a value of another type. -/
def assertFloat64 : Option JVal → Option ℚ
  | some (JVal.num f) => some f
  | _ => none

/-- The single-value type assertion `.(string)` on a map element. -/
def assertString : Option JVal → Option String
  | some (JVal.str s) => some s
  | _ => none

/-- The single-value type assertion `.(bool)` on a map element. -/
def assertBool : Option JVal → Option Bool
  | some (JVal.bool b) => some b
  | _ => none

/-- Round `a / 2 ^ k` to the nearest natural number, a tie going to the even
one. -/
def roundHalfEven (a k : Nat) : Nat :=
  let q := a / 2 ^ k
  let r := a % 2 ^ k
  if 2 * r < 2 ^ k then q
  else if 2 ^ k < 2 * r then q + 1
  else if q % 2 = 0 then q else q + 1

/-- The number of binary digits `a` has beyond 53, the size of the significand
of a `float64`; `a` halvings are always enough to count them. -/
def excessBits : Nat → Nat → Nat
  | 0, _ => 0
  | fuel + 1, a => if a < 2 ^ 53 then 0 else excessBits fuel (a / 2) + 1

/-- The `float64` that `encoding/json` (through `strconv.ParseFloat`) decodes
a natural number into: the number rounded to 53 significant binary digits,
ties to even; `none` when the result is beyond the largest `float64`
(it would need more than 1024 binary digits), where decoding fails. -/
def float64OfNat (a : Nat) : Option Nat :=
  let k := excessBits a a
  let m := roundHalfEven a k * 2 ^ k
  if excessBits m m ≤ 971 then some m else none

/-- The `float64` that `encoding/json` decodes an integer into, as the integer
it equals; `none` when decoding fails (and `ReadJSON` returns an error). -/
def float64OfInt (n : Int) : Option Int :=
  match float64OfNat n.natAbs with
  | none => none
  | some m => some (if n < 0 then -(m : Int) else (m : Int))

/-- What the decoder stores in the map for a key whose value in the frame is
the integer `n`. -/
def decodedInt (n : Int) : Option JVal :=
  match float64OfInt n with
  | none => none
  | some f => some (JVal.num (f : ℚ))

/-- The conversion `int(f)` of a `float64` on a 64-bit platform: the fraction
is discarded (truncation towards zero). For a value outside the range of `int`
Go leaves the result to the implementation; the value taken here is the one
amd64 produces. -/
def goInt (f : ℚ) : Int :=
  let t := Int.tdiv f.num f.den
  if -(2 : Int) ^ 63 ≤ t ∧ t < (2 : Int) ^ 63 then t else -(2 : Int) ^ 63

/-- The lines 50 to 55 of `handleWebSocket`: the new connection is stored
under `uid`, a connection found there before is closed. -/
def register (uid : Int) (conn : Conn) (w : World) : World :=
  let w1 := w.emit [Effect.lock]
  let w2 :=
    match w1.users.get uid with
    | some oldConn => w1.emit [Effect.close oldConn]
    | none => w1
  let w3 := { w2 with users := w2.users.set uid conn }
  w3.emit [Effect.unlock]

/-- The lines 72 to 74 of `handleWebSocket`: the entry of `uid` is deleted
under the write lock. The builtin `delete` returns nothing and does not fail. -/
def deregister (uid : Int) (w : World) : World :=
  let w1 := w.emit [Effect.lock]
  let w2 := { w1 with users := w1.users.delete uid }
  w2.emit [Effect.unlock]

/-- The branch `if err != nil` after `ReadJSON` (lines 68 to 77). -/
def readFailed (env : Env) (uid : Int) (unexpectedClose : Bool) (w : World) : World :=
  let w1 := if unexpectedClose then w.emit [Effect.log "WebSocket error"] else w
  let w2 := w1.emit [Effect.lock]
  let w3 := { w2 with users := w2.users.delete uid }
  let w4 := w3.emit [Effect.unlock]
  broadcastOnlineUsers env w4

/-- The case `"requestUserList"` of the switch. -/
def onRequestUserList (env : Env) (uid : Int) (w : World) : World :=
  let w1 := w.emit [Effect.rlock]
  let w2 :=
    match w1.users.get uid with
    | some _ => broadcastOnlineUsers env w1
    | none => w1
  w2.emit [Effect.runlock]

/-- The case `"chat_message"` of the switch. -/
def onChatMessage (env : Env) (uid : Int) (content : JVal) (w : World) : Flow × World :=
  match content with
  | JVal.obj chatMsg =>
      match assertFloat64 (chatMsg.lookup "to") with
      | none => (Flow.panicked, w)
      | some f =>
          let toID := goInt f
          match assertString (chatMsg.lookup "content") with
          | none => (Flow.panicked, w)
          | some content =>
              match env.nickname uid with
              | none => (Flow.next, w)
              | some fromNick =>
                  let message : ChatMessage :=
                    { FromID := uid, FromNick := fromNick, ToID := toID,
                      Content := content, Timestamp := env.now }
                  let w1 := w.emit [Effect.insert message.FromID message.ToID message.Content]
                  if env.insertOk message.FromID message.ToID message.Content then
                    let w2 := { w1 with chat_messages := w1.chat_messages ++
                      [ChatRow.mk message.FromID message.ToID message.Content] }
                    let w3 := w2.emit [Effect.rlock]
                    let w4 :=
                      match w3.users.get toID with
                      | some recipientConn =>
                          w3.emit [Effect.write recipientConn (OutFrame.chatMessage message)]
                      | none => w3
                    (Flow.next, w4.emit [Effect.runlock])
                  else
                    (Flow.next, w1.emit [Effect.log "Error storing chat message"])
  | _ => (Flow.next, w)

/-- The case `"typing_status"` of the switch. -/
def onTypingStatus (uid : Int) (content : JVal) (w : World) : Flow × World :=
  match content with
  | JVal.obj typingStatus =>
      match assertFloat64 (typingStatus.lookup "to") with
      | none => (Flow.panicked, w)
      | some f =>
          let toID := goInt f
          match assertBool (typingStatus.lookup "isTyping") with
          | none => (Flow.panicked, w)
          | some isTyping =>
              let w1 := w.emit [Effect.rlock]
              let w2 :=
                match w1.users.get toID with
                | some recipientConn =>
                    w1.emit [Effect.write recipientConn (OutFrame.typingStatus uid isTyping)]
                | none => w1
              (Flow.next, w2.emit [Effect.runlock])
  | _ => (Flow.next, w)

/-- The statement `switch msg.Type` (lines 79 to 143). -/
def dispatch (env : Env) (uid : Int) (msg : Msg) (w : World) : Flow × World :=
  if msg.msgType = "requestUserList" then (Flow.next, onRequestUserList env uid w)
  else if msg.msgType = "chat_message" then onChatMessage env uid msg.Content w
  else if msg.msgType = "typing_status" then onTypingStatus uid msg.Content w
  else (Flow.next, w)

/-- One iteration of the loop `for` of `handleWebSocket` (lines 61 to 144),
given what `ReadJSON` returned. -/
def loopStep (env : Env) (uid : Int) (r : ReadResult) (w : World) : Flow × World :=
  match r with
  | ReadResult.error unexpectedClose => (Flow.exit, readFailed env uid unexpectedClose w)
  | ReadResult.frame msg => dispatch env uid msg w

/-- The loop `for` of `handleWebSocket` run on the results of its successive
reads. The outcome `Flow.next` says that the handler is blocked in the next
`ReadJSON`. -/
def loop (env : Env) (uid : Int) : List ReadResult → World → Flow × World
  | [], w => (Flow.next, w)
  | r :: rs, w =>
      match loopStep env uid r w with
      | (Flow.next, w1) => loop env uid rs w1
      | res => res

/-- The digit loop of `strconv.Atoi`: any byte that is not a decimal digit is
a syntax error (`none`). -/
def parseDigits : List Char → Nat → Option Nat
  | [], acc => some acc
  | ch :: rest, acc =>
      if '0' ≤ ch ∧ ch ≤ '9' then parseDigits rest (acc * 10 + (ch.toNat - 48)) else none

/-- The function `strconv.Atoi` of the Go standard library on a 64-bit
platform: an optional sign followed by one or more decimal digits, the value
within the range of `int`; `none` stands for a non-nil error. -/
def Atoi (s : String) : Option Int :=
  match s.toList with
  | [] => none
  | ch :: rest =>
      let neg := decide (ch = '-')
      let digits := if ch = '-' ∨ ch = '+' then rest else ch :: rest
      if digits = [] then none
      else
        match parseDigits digits 0 with
        | none => none
        | some n =>
            let v : Int := if neg then -(n : Int) else (n : Int)
            if -(2 : Int) ^ 63 ≤ v ∧ v < (2 : Int) ^ 63 then some v else none

/-- The call `r.URL.Query().Get(key)`: the first value stored under the key,
the empty string when there is none. -/
def queryGet (query : List (String × String)) (key : String) : String :=
  (query.lookup key).getD ""

/-- What `handleWebSocket` receives: the result of `upgrader.Upgrade` (`none`
for a non-nil error) and the parsed query of the request URL. -/
structure Request where
  upgrade : Option Conn
  query : List (String × String)

/-- The lines 49 to 144 of `handleWebSocket`: registration, broadcast and the
read loop, followed by the deferred `conn.Close()` once the loop is left. -/
def serve (env : Env) (uid : Int) (conn : Conn) (reads : List ReadResult) (w : World) : World :=
  let w1 := register uid conn w
  let w2 := broadcastOnlineUsers env w1
  match loop env uid reads w2 with
  | (Flow.next, w3) => w3
  | (_, w3) => w3.emit [Effect.close conn]

/-- The function `handleWebSocket`. -/
def handleWebSocket (env : Env) (req : Request) (reads : List ReadResult) (w : World) : World :=
  match req.upgrade with
  | none => w.emit [Effect.log "WebSocket upgrade error"]
  | some conn =>
      let userID := queryGet req.query "user_id"
      if userID = "" then w.emit [Effect.close conn]
      else
        match Atoi userID with
        | none => w.emit [Effect.close conn]
        | some uid => serve env uid conn reads w

/-! ## `updateProfileHandler` (src/auth.go) -/

/-- The anonymous struct `profile` that the JSON decoder fills in. -/
structure ProfileBody where
  UserID : Int
  ProfilePic : String
  ProfileThought : String
  deriving DecidableEq, Repr

/-- What `updateProfileHandler` does: the status and the message it answers
with, and the arguments of the `UPDATE users` statements it executed. -/
structure ProfileResult where
  status : Nat
  body : String
  updates : List ProfileBody
  deriving DecidableEq, Repr

/-- The function `updateProfileHandler`. It is given the request method, the
result of `json.NewDecoder(r.Body).Decode(&profile)` (`none` for a non-nil
error) and whether `db.Exec` succeeds. The builtin `len` of a Go string is its
number of bytes, here the size of the UTF-8 encoding. -/
def updateProfileHandler (execOk : ProfileBody → Bool) (method : String)
    (decoded : Option ProfileBody) : ProfileResult :=
  if method ≠ "POST" then
    { status := 405, body := "Invalid request method", updates := [] }
  else
    match decoded with
    | none => { status := 400, body := "Invalid input", updates := [] }
    | some profile =>
        if profile.ProfileThought.utf8ByteSize > 30 then
          { status := 400, body := "Profile thought must be 30 characters or less",
            updates := [] }
        else if execOk profile then
          { status := 200, body := "", updates := [profile] }
        else
          { status := 500, body := "Error updating profile", updates := [profile] }

/-! ## Reading the trace, and sample data for the examples -/

/-- The connections `Close` was called on, in order. -/
def closesOf : List Effect → List Conn
  | [] => []
  | Effect.close c :: es => c :: closesOf es
  | _ :: es => closesOf es

/-- The frames handed to `WriteJSON` with their connections, in order. -/
def writesOf : List Effect → List (Conn × OutFrame)
  | [] => []
  | Effect.write c frame :: es => (c, frame) :: writesOf es
  | _ :: es => writesOf es

/-- The rows the `INSERT` statement was executed with, in order. -/
def insertsOf : List Effect → List ChatRow
  | [] => []
  | Effect.insert from_id to_id content :: es => ChatRow.mk from_id to_id content :: insertsOf es
  | _ :: es => insertsOf es

/-- What was done between an earlier world and a later one. -/
def effectsSince (w w1 : World) : List Effect :=
  w1.trace.drop w.trace.length

/-- The effects of one call of `broadcastOnlineUsers` on a given registry. -/
def broadcastEffects (env : Env) (users : Registry) : List Effect :=
  match env.allUsers with
  | none => [Effect.rlock, Effect.log "Error fetching users", Effect.runlock]
  | some rows =>
      [Effect.rlock] ++ sendAll env (OutFrame.userList (scanUsers users rows)) users
        ++ [Effect.runlock]

/-- An environment in which the datastore and every write succeed; the user
directory has the two rows alice (id 1) and bob (id 2). -/
def sampleEnv : Env where
  allUsers := some [some (1, "alice"), some (2, "bob")]
  nickname := fun uid => if uid = 1 then some "alice" else if uid = 2 then some "bob" else none
  insertOk := fun _ _ _ => true
  writeOk := fun _ => true
  now := "2024-01-01T00:00:00Z"

/-- An environment whose datastore fails on every call. -/
def failingEnv : Env where
  allUsers := none
  nickname := fun _ => none
  insertOk := fun _ _ _ => false
  writeOk := fun _ => true
  now := "2024-01-01T00:00:00Z"

/-- A world in which user 1 is connected on connection 10 and user 2 on
connection 20. -/
def sampleWorld : World where
  users := [(1, 10), (2, 20)]
  chat_messages := []
  trace := []

/-- The frame relayed for a chat message. -/
def relayedChat (env : Env) (uid : Int) (nick : String) (toID : Int) (content : String) :
    OutFrame :=
  OutFrame.chatMessage
    { FromID := uid, FromNick := nick, ToID := toID, Content := content, Timestamp := env.now }

/-- A chat message for user 99, who is not connected, with the text "x". -/
def chatFieldsAbsent : List (String × JVal) :=
  [("to", JVal.num ((99 : Int) : ℚ)), ("content", JVal.str "x")]

/-- A typing notification for user 2. -/
def typingFields : List (String × JVal) :=
  [("to", JVal.num ((2 : Int) : ℚ)), ("isTyping", JVal.bool true)]

/-- A world in which only user 2 is connected, on connection 20. -/
def bobOnly : World where
  users := [(2, 20)]
  chat_messages := []
  trace := []

/-- Whether a presence list has an entry for `id` whose status is true. -/
def onlineInSnapshot (snapshot : List UserEntry) (id : Int) : Bool :=
  snapshot.any (fun e => decide (e.id = id) && e.status)

/-- The number of locks on `onlineUsers` (read or write) the handler holds
after a run of effects, given the number it held before. -/
def heldAfter : Nat → List Effect → Nat
  | h, [] => h
  | h, Effect.lock :: es => heldAfter (h + 1) es
  | h, Effect.rlock :: es => heldAfter (h + 1) es
  | h, Effect.unlock :: es => heldAfter (h - 1) es
  | h, Effect.runlock :: es => heldAfter (h - 1) es
  | h, Effect.close _ :: es => heldAfter h es
  | h, Effect.write _ _ :: es => heldAfter h es
  | h, Effect.insert _ _ _ :: es => heldAfter h es
  | h, Effect.log _ :: es => heldAfter h es

/-- The connections `Close` was called on while the handler held a lock on
`onlineUsers`, given the number of locks it held at the start. -/
def closesWhileLocked : Nat → List Effect → List Conn
  | _, [] => []
  | h, Effect.lock :: es => closesWhileLocked (h + 1) es
  | h, Effect.rlock :: es => closesWhileLocked (h + 1) es
  | h, Effect.unlock :: es => closesWhileLocked (h - 1) es
  | h, Effect.runlock :: es => closesWhileLocked (h - 1) es
  | h, Effect.close c :: es => (if 0 < h then [c] else []) ++ closesWhileLocked h es
  | h, Effect.write _ _ :: es => closesWhileLocked h es
  | h, Effect.insert _ _ _ :: es => closesWhileLocked h es
  | h, Effect.log _ :: es => closesWhileLocked h es

/-- The connections `Close` was called on while the handler held no lock. -/
def closesWhileUnlocked : Nat → List Effect → List Conn
  | _, [] => []
  | h, Effect.lock :: es => closesWhileUnlocked (h + 1) es
  | h, Effect.rlock :: es => closesWhileUnlocked (h + 1) es
  | h, Effect.unlock :: es => closesWhileUnlocked (h - 1) es
  | h, Effect.runlock :: es => closesWhileUnlocked (h - 1) es
  | h, Effect.close c :: es => (if 0 < h then [] else [c]) ++ closesWhileUnlocked h es
  | h, Effect.write _ _ :: es => closesWhileUnlocked h es
  | h, Effect.insert _ _ _ :: es => closesWhileUnlocked h es
  | h, Effect.log _ :: es => closesWhileUnlocked h es

/-- The environment `sampleEnv` except that every write to connection 10
fails. -/
def flakyEnv : Env where
  allUsers := some [some (1, "alice"), some (2, "bob")]
  nickname := fun uid => if uid = 1 then some "alice" else if uid = 2 then some "bob" else none
  insertOk := fun _ _ _ => true
  writeOk := fun c => decide (c ≠ 10)
  now := "2024-01-01T00:00:00Z"

/-- A run of effects that closes no connection and leaves the number of locks
held as it was. -/
def Quiet (es : List Effect) : Prop :=
  closesOf es = [] ∧ ∀ h, heldAfter h es = h

/-- The later world arises from the earlier one by a quiet run of effects. -/
def QuietStep (w w1 : World) : Prop :=
  ∃ es, w1.trace = w.trace ++ es ∧ Quiet es

/-- A world in which user 1 is connected on connection 10 and the user with
id 9007199254740992 on connection 40; the id 9007199254740993 has no entry. -/
def roundedIdWorld : World where
  users := [(1, 10), (9007199254740992, 40)]
  chat_messages := []
  trace := []

/-- The decoded payload of a chat message with the text "hi" whose `to` is
9007199254740993 in the frame: the decoder has stored 9007199254740992. -/
def chatFieldsBig : List (String × JVal) :=
  [("to", JVal.num ((9007199254740992 : Int) : ℚ)), ("content", JVal.str "hi")]

/-- A profile thought of sixteen two-byte characters. -/
def sixteenAccents : String := "éééééééééééééééé"

/-! ## Facts about the registry -/

theorem Registry.get_delete_self (users : Registry) (uid : Int) :
    (users.delete uid).get uid = none := by
  induction users with
  | nil => rfl
  | cons e rest ih =>
      obtain ⟨k, c⟩ := e
      by_cases h : k = uid
      · simpa [Registry.delete, h] using ih
      · simpa [Registry.delete, Registry.get, h] using ih

theorem Registry.get_delete_ne (users : Registry) (uid v : Int) (h : v ≠ uid) :
    (users.delete uid).get v = users.get v := by
  induction users with
  | nil => rfl
  | cons e rest ih =>
      obtain ⟨k, c⟩ := e
      simp only [Registry.delete] at ih
      by_cases hk : k = uid
      · subst hk
        have hkv : ¬ k = v := fun hv => h hv.symm
        simp [Registry.delete, Registry.get, hkv, List.filter_cons, ih]
      · by_cases hv : k = v
        · subst hv
          simp [Registry.delete, Registry.get, hk, List.filter_cons]
        · simp [Registry.delete, Registry.get, hk, hv, List.filter_cons, ih]

theorem Registry.get_set_self (users : Registry) (uid : Int) (conn : Conn) :
    (users.set uid conn).get uid = some conn := by
  simp [Registry.set, Registry.get]

theorem Registry.get_set_ne (users : Registry) (uid v : Int) (conn : Conn) (h : v ≠ uid) :
    (users.set uid conn).get v = users.get v := by
  have h2 : ¬ uid = v := fun e => h e.symm
  simp [Registry.set, Registry.get, h2, Registry.get_delete_ne users uid v h]

theorem Registry.entriesOf_delete_self (users : Registry) (uid : Int) :
    (users.delete uid).entriesOf uid = [] := by
  simp [Registry.entriesOf, Registry.delete, List.filter_filter]

theorem Registry.entriesOf_delete_ne (users : Registry) (uid v : Int) (h : v ≠ uid) :
    (users.delete uid).entriesOf v = users.entriesOf v := by
  simp only [Registry.entriesOf, Registry.delete, List.filter_filter]
  apply List.filter_congr
  intro e _
  by_cases hv : e.1 = v
  · simp [hv, h]
  · simp [hv]

theorem Registry.entriesOf_set_self (users : Registry) (uid : Int) (conn : Conn) :
    (users.set uid conn).entriesOf uid = [(uid, conn)] := by
  have h := Registry.entriesOf_delete_self users uid
  simp only [Registry.entriesOf] at h
  simp [Registry.set, Registry.entriesOf, List.filter_cons, h]

theorem Registry.entriesOf_set_ne (users : Registry) (uid v : Int) (conn : Conn) (h : v ≠ uid) :
    (users.set uid conn).entriesOf v = users.entriesOf v := by
  have h2 : ¬ uid = v := fun e => h e.symm
  have h3 := Registry.entriesOf_delete_ne users uid v h
  simp only [Registry.entriesOf] at h3
  simp [Registry.set, Registry.entriesOf, List.filter_cons, h2, h3]

theorem Registry.delete_set (users : Registry) (uid : Int) (conn : Conn) :
    (users.set uid conn).delete uid = users.delete uid := by
  simp [Registry.set, Registry.delete, List.filter_cons, List.filter_filter]

theorem Registry.get_isSome_iff (users : Registry) (uid : Int) :
    (users.get uid).isSome = true ↔ ∃ c, (uid, c) ∈ users := by
  induction users with
  | nil => simp [Registry.get]
  | cons e rest ih =>
      obtain ⟨k, c⟩ := e
      by_cases hk : k = uid
      · subst hk
        simp [Registry.get]
      · have hk2 : ¬ uid = k := fun e => hk e.symm
        simp [Registry.get, hk, hk2, ih]

/-! ## Facts about the trace -/

theorem closesOf_append (xs ys : List Effect) :
    closesOf (xs ++ ys) = closesOf xs ++ closesOf ys := by
  induction xs with
  | nil => rfl
  | cons e rest ih => cases e <;> simp [closesOf, ih]

theorem writesOf_append (xs ys : List Effect) :
    writesOf (xs ++ ys) = writesOf xs ++ writesOf ys := by
  induction xs with
  | nil => rfl
  | cons e rest ih => cases e <;> simp [writesOf, ih]

theorem insertsOf_append (xs ys : List Effect) :
    insertsOf (xs ++ ys) = insertsOf xs ++ insertsOf ys := by
  induction xs with
  | nil => rfl
  | cons e rest ih => cases e <;> simp [insertsOf, ih]

theorem closesOf_sendAll (env : Env) (message : OutFrame) (users : Registry) :
    closesOf (sendAll env message users) = [] := by
  induction users with
  | nil => rfl
  | cons e rest ih =>
      obtain ⟨k, c⟩ := e
      by_cases h : env.writeOk c = true <;> simp [sendAll, h, closesOf, closesOf_append, ih]

theorem insertsOf_sendAll (env : Env) (message : OutFrame) (users : Registry) :
    insertsOf (sendAll env message users) = [] := by
  induction users with
  | nil => rfl
  | cons e rest ih =>
      obtain ⟨k, c⟩ := e
      by_cases h : env.writeOk c = true <;> simp [sendAll, h, insertsOf, insertsOf_append, ih]

theorem writesOf_sendAll (env : Env) (message : OutFrame) (users : Registry) :
    writesOf (sendAll env message users) = users.map (fun e => (e.2, message)) := by
  induction users with
  | nil => rfl
  | cons e rest ih =>
      obtain ⟨k, c⟩ := e
      by_cases h : env.writeOk c = true <;> simp [sendAll, h, writesOf, writesOf_append, ih]

theorem broadcastOnlineUsers_eq (env : Env) (w : World) :
    broadcastOnlineUsers env w = w.emit (broadcastEffects env w.users) := by
  unfold broadcastOnlineUsers broadcastEffects
  cases env.allUsers <;> rfl

theorem closesOf_broadcastEffects (env : Env) (users : Registry) :
    closesOf (broadcastEffects env users) = [] := by
  unfold broadcastEffects
  cases env.allUsers <;> simp [closesOf, closesOf_append, closesOf_sendAll]

theorem insertsOf_broadcastEffects (env : Env) (users : Registry) :
    insertsOf (broadcastEffects env users) = [] := by
  unfold broadcastEffects
  cases env.allUsers <;> simp [insertsOf, insertsOf_append, insertsOf_sendAll]

theorem writesOf_broadcastEffects (env : Env) (users : Registry) :
    writesOf (broadcastEffects env users) =
      match env.allUsers with
      | none => []
      | some rows => users.map (fun e => (e.2, OutFrame.userList (scanUsers users rows))) := by
  unfold broadcastEffects
  cases env.allUsers <;> simp [writesOf, writesOf_append, writesOf_sendAll]

theorem register_users (uid : Int) (conn : Conn) (w : World) :
    (register uid conn w).users = w.users.set uid conn := by
  unfold register
  simp only [World.emit]
  cases w.users.get uid <;> rfl

theorem register_chat_messages (uid : Int) (conn : Conn) (w : World) :
    (register uid conn w).chat_messages = w.chat_messages := by
  unfold register
  simp only [World.emit]
  cases w.users.get uid <;> rfl

theorem register_trace (uid : Int) (conn : Conn) (w : World) :
    (register uid conn w).trace =
      w.trace ++ ([Effect.lock] ++ (w.users.get uid).toList.map Effect.close ++ [Effect.unlock]) := by
  unfold register
  simp only [World.emit]
  cases w.users.get uid <;> simp

theorem readFailed_users (env : Env) (uid : Int) (b : Bool) (w : World) :
    (readFailed env uid b w).users = w.users.delete uid := by
  unfold readFailed
  simp only [broadcastOnlineUsers_eq, World.emit]
  cases b <;> rfl

theorem readFailed_chat_messages (env : Env) (uid : Int) (b : Bool) (w : World) :
    (readFailed env uid b w).chat_messages = w.chat_messages := by
  unfold readFailed
  simp only [broadcastOnlineUsers_eq, World.emit]
  cases b <;> rfl

theorem readFailed_trace (env : Env) (uid : Int) (b : Bool) (w : World) :
    (readFailed env uid b w).trace =
      w.trace ++ ((if b then [Effect.log "WebSocket error"] else [])
        ++ [Effect.lock, Effect.unlock] ++ broadcastEffects env (w.users.delete uid)) := by
  unfold readFailed
  simp only [broadcastOnlineUsers_eq, World.emit]
  cases b <;> simp

theorem scanUsers_mem (users : Registry) (rows : List (Option (Int × String))) (e : UserEntry) :
    e ∈ scanUsers users rows ↔
      some (e.id, e.nickname) ∈ rows ∧ e.status = (users.get e.id).isSome := by
  induction rows with
  | nil => simp [scanUsers]
  | cons r rest ih =>
      cases r with
      | none => simp [scanUsers, ih]
      | some p =>
          obtain ⟨id, nick⟩ := p
          obtain ⟨eid, enick, est⟩ := e
          simp only [scanUsers, List.mem_cons, ih, UserEntry.mk.injEq, Option.some.injEq,
            Prod.mk.injEq]
          constructor
          · rintro (⟨h1, h2, h3⟩ | ⟨h1, h2⟩)
            · subst h1 h2
              exact ⟨Or.inl ⟨rfl, rfl⟩, h3⟩
            · exact ⟨Or.inr h1, h2⟩
          · rintro ⟨(⟨h1, h2⟩ | h1), h3⟩
            · subst h1 h2
              exact Or.inl ⟨rfl, rfl, h3⟩
            · exact Or.inr ⟨h1, h3⟩

/-! ## Reconnection (C1) and registration (C2) -/

theorem serve_nil_users (env : Env) (uid : Int) (conn : Conn) (w : World) :
    (serve env uid conn [] w).users = w.users.set uid conn := by
  simp [serve, loop, broadcastOnlineUsers_eq, World.emit, register_users]

theorem serve_nil_trace (env : Env) (uid : Int) (conn : Conn) (w : World) :
    (serve env uid conn [] w).trace =
      w.trace ++ (([Effect.lock] ++ (w.users.get uid).toList.map Effect.close ++ [Effect.unlock])
        ++ broadcastEffects env (w.users.set uid conn)) := by
  simp [serve, loop, broadcastOnlineUsers_eq, World.emit, register_users, register_trace]

/-- The cleanup of a handler whose connection was replaced: for every user id
`u`, after `c1` was registered for `u`, `c2` was accepted for `u` (which closes
`c1` and leaves `c2` as the only entry of `u`) and the handler of `c1` then ran
the error branch of its read, the registry has no entry for `u` at all, and
the presence list built from it marks `u` offline. -/
theorem stale_cleanup_drops_new_connection (env : Env) (u : Int) (c1 c2 : Conn) (b : Bool)
    (w : World) :
    (serve env u c2 [] (register u c1 w)).users.get u = some c2 ∧
    (serve env u c2 [] (register u c1 w)).users.entriesOf u = [(u, c2)] ∧
    closesOf ((serve env u c2 [] (register u c1 w)).trace.drop (register u c1 w).trace.length)
      = [c1] ∧
    (loopStep env u (ReadResult.error b) (serve env u c2 [] (register u c1 w))).1 = Flow.exit ∧
    (loopStep env u (ReadResult.error b) (serve env u c2 [] (register u c1 w))).2.users.get u
      = none ∧
    (loopStep env u (ReadResult.error b) (serve env u c2 [] (register u c1 w))).2.users.entriesOf u
      = [] := by
  have hget : (register u c1 w).users.get u = some c1 := by
    rw [register_users, Registry.get_set_self]
  generalize register u c1 w = w0 at hget
  have htrace := serve_nil_trace env u c2 w0
  rw [hget] at htrace
  refine ⟨?_, ?_, ?_, rfl, ?_, ?_⟩
  · rw [serve_nil_users, Registry.get_set_self]
  · rw [serve_nil_users, Registry.entriesOf_set_self]
  · rw [htrace, List.drop_left]
    simp [closesOf, closesOf_append, closesOf_broadcastEffects]
  · simp only [loopStep, readFailed_users, Registry.get_delete_self]
  · simp only [loopStep, readFailed_users, Registry.entriesOf_delete_self]

/-- C1 (evaluation at the failing input). User 1 is connected on connection 10
and user 2 on connection 20; a request with `user_id=1` is upgraded to
connection 11, and then the handler of connection 10 sees its read fail.
The accept closes connection 10 and leaves 11 as the entry of user 1; the
cleanup of the old handler then removes the entry of user 1 although it holds
connection 11, and the broadcast it sends to connection 20 lists user 1
(alice) with status false. -/
theorem reconnect_stale_cleanup_at_sample :
    (handleWebSocket sampleEnv ⟨some 11, [("user_id", "1")]⟩ [] sampleWorld).users
      = [(1, 11), (2, 20)] ∧
    closesOf (handleWebSocket sampleEnv ⟨some 11, [("user_id", "1")]⟩ [] sampleWorld).trace
      = [10] ∧
    (loopStep sampleEnv 1 (ReadResult.error false)
      (handleWebSocket sampleEnv ⟨some 11, [("user_id", "1")]⟩ [] sampleWorld)).2.users
      = [(2, 20)] ∧
    writesOf ((loopStep sampleEnv 1 (ReadResult.error false)
      (handleWebSocket sampleEnv ⟨some 11, [("user_id", "1")]⟩ [] sampleWorld)).2.trace.drop
        (handleWebSocket sampleEnv ⟨some 11, [("user_id", "1")]⟩ [] sampleWorld).trace.length)
      = [(20, OutFrame.userList [⟨1, "alice", false⟩, ⟨2, "bob", true⟩])] := by
  decide

/-- C2. Registering `conn` for `uid` (lines 49 to 55 of `handleWebSocket`)
leaves exactly one entry for `uid`, namely `conn`; `Close` is called exactly
once on the connection `uid` had before, if it had one, and on nothing else;
the entries of every other user id `v` are unchanged. -/
theorem register_single_entry (uid : Int) (conn : Conn) (w : World) (v : Int) (hv : v ≠ uid) :
    (register uid conn w).users.entriesOf uid = [(uid, conn)] ∧
    (register uid conn w).users.get uid = some conn ∧
    closesOf (effectsSince w (register uid conn w)) = (w.users.get uid).toList ∧
    (register uid conn w).users.entriesOf v = w.users.entriesOf v ∧
    (register uid conn w).users.get v = w.users.get v := by
  refine ⟨?_, ?_, ?_, ?_, ?_⟩
  · rw [register_users, Registry.entriesOf_set_self]
  · rw [register_users, Registry.get_set_self]
  · rw [effectsSince, register_trace, List.drop_left]
    cases w.users.get uid <;> simp [closesOf]
  · rw [register_users, Registry.entriesOf_set_ne _ _ _ _ hv]
  · rw [register_users, Registry.get_set_ne _ _ _ _ hv]

/-- Witness of C2: user 1 reconnects on connection 11 while connection 10 is
registered for it and connection 20 for user 2. -/
theorem register_single_entry_witness :
    (2 : Int) ≠ 1 ∧
    (register 1 11 sampleWorld).users.entriesOf 1 = [(1, 11)] ∧
    (register 1 11 sampleWorld).users.get 1 = some 11 ∧
    closesOf (effectsSince sampleWorld (register 1 11 sampleWorld)) = [10] ∧
    (register 1 11 sampleWorld).users.entriesOf 2 = [(2, 20)] ∧
    (register 1 11 sampleWorld).users.get 2 = some 20 :=
  ⟨by decide, register_single_entry 1 11 sampleWorld 2 (by decide)⟩

/-! ## The switch on the frame type (C3, C4, C6, C7, C8) -/

theorem goInt_intCast (n : Int) (h : -(2 : Int) ^ 63 ≤ n ∧ n < (2 : Int) ^ 63) :
    goInt (n : ℚ) = n := by
  have h1 : Int.tdiv (n : ℚ).num (n : ℚ).den = n := by simp
  unfold goInt
  simp only [h1]
  exact if_pos h

/-- The case `"chat_message"` on a payload that has a number under `"to"` and a
string under `"content"`. -/
theorem onChatMessage_wellformed (env : Env) (uid : Int) (fields : List (String × JVal))
    (f : ℚ) (content : String) (w : World)
    (hto : fields.lookup "to" = some (JVal.num f))
    (hcontent : fields.lookup "content" = some (JVal.str content)) :
    onChatMessage env uid (JVal.obj fields) w =
      match env.nickname uid with
      | none => (Flow.next, w)
      | some nick =>
          if env.insertOk uid (goInt f) content then
            (Flow.next,
              { users := w.users
                chat_messages := w.chat_messages ++ [ChatRow.mk uid (goInt f) content]
                trace := w.trace ++ ([Effect.insert uid (goInt f) content, Effect.rlock]
                  ++ (w.users.get (goInt f)).toList.map
                      (fun rc => Effect.write rc (relayedChat env uid nick (goInt f) content))
                  ++ [Effect.runlock]) })
          else
            (Flow.next,
              { users := w.users
                chat_messages := w.chat_messages
                trace := w.trace ++ [Effect.insert uid (goInt f) content,
                  Effect.log "Error storing chat message"] }) := by
  simp only [onChatMessage, hto, hcontent, assertFloat64, assertString]
  cases hn : env.nickname uid with
  | none => rfl
  | some nick =>
      simp only [World.emit]
      by_cases hi : env.insertOk uid (goInt f) content = true
      · simp only [hi, if_true]
        cases w.users.get (goInt f) <;> simp [relayedChat]
      · simp [hi]

theorem dispatch_chat_message (env : Env) (uid : Int) (content : JVal) (w : World) :
    dispatch env uid ⟨"chat_message", content⟩ w = onChatMessage env uid content w := by
  simp [dispatch]

theorem dispatch_typing_status (env : Env) (uid : Int) (content : JVal) (w : World) :
    dispatch env uid ⟨"typing_status", content⟩ w = onTypingStatus uid content w := by
  simp [dispatch]

/-- The case `"typing_status"` on a payload that has a number under `"to"` and
a boolean under `"isTyping"`. -/
theorem onTypingStatus_wellformed (uid : Int) (fields : List (String × JVal))
    (f : ℚ) (isTyping : Bool) (w : World)
    (hto : fields.lookup "to" = some (JVal.num f))
    (htyping : fields.lookup "isTyping" = some (JVal.bool isTyping)) :
    onTypingStatus uid (JVal.obj fields) w =
      (Flow.next,
        { users := w.users
          chat_messages := w.chat_messages
          trace := w.trace ++ ([Effect.rlock]
            ++ (w.users.get (goInt f)).toList.map
                (fun rc => Effect.write rc (OutFrame.typingStatus uid isTyping))
            ++ [Effect.runlock]) }) := by
  simp only [onTypingStatus, hto, htyping, assertFloat64, assertBool, World.emit]
  cases w.users.get (goInt f) <;> simp

theorem excessBits_small (fuel a : Nat) (h : a < 2 ^ 53) : excessBits fuel a = 0 := by
  cases fuel with
  | zero => rfl
  | succ k =>
      simp only [excessBits]
      rw [if_pos h]

theorem float64OfNat_small (a : Nat) (h : a < 2 ^ 53) : float64OfNat a = some a := by
  simp [float64OfNat, excessBits_small _ a h, roundHalfEven, Nat.mod_one]

/-- An integer of magnitude below `2 ^ 53` is decoded into the `float64` that
equals it. -/
theorem float64OfInt_small (n : Int) (h : n.natAbs < 2 ^ 53) : float64OfInt n = some n := by
  simp only [float64OfInt, float64OfNat_small _ h]
  congr 1
  by_cases hn : n < 0
  · rw [if_pos hn, Int.ofNat_natAbs_of_nonpos (le_of_lt hn), neg_neg]
  · rw [if_neg hn, Int.natAbs_of_nonneg (not_lt.1 hn)]

theorem decodedInt_exact (n : Int) (h : float64OfInt n = some n) :
    decodedInt n = some (JVal.num (n : ℚ)) := by
  simp only [decodedInt, h]

/-- C7 as stated fails. (1) Connection 30 is bound to user id 3, for which the
directory has no row, and sends a chat message to user 99, who has no
registry entry: the nickname lookup fails and the handler goes on to the next
frame without executing any insert, so nothing is persisted. (2) User 1
(alice) sends "hi" with `to` = 9007199254740993, an id without registry
entry: the decoder stores 9007199254740992, the row inserted has that
`to_id`, and a frame is written to connection 40, registered for
9007199254740992. -/
theorem chat_to_absent_not_persisted_when_lookup_fails :
    (register 3 30 sampleWorld).users.get 3 = some 30 ∧
    (register 3 30 sampleWorld).users.get 99 = none ∧
    insertsOf (effectsSince (register 3 30 sampleWorld)
        (dispatch sampleEnv 3 ⟨"chat_message", JVal.obj chatFieldsAbsent⟩
          (register 3 30 sampleWorld)).2) = [] ∧
    (dispatch sampleEnv 3 ⟨"chat_message", JVal.obj chatFieldsAbsent⟩
      (register 3 30 sampleWorld)).2.chat_messages = [] ∧
    float64OfInt 9007199254740993 = some 9007199254740992 ∧
    chatFieldsBig.lookup "to" = decodedInt 9007199254740993 ∧
    roundedIdWorld.users.get 9007199254740993 = none ∧
    insertsOf (effectsSince roundedIdWorld
        (dispatch sampleEnv 1 ⟨"chat_message", JVal.obj chatFieldsBig⟩ roundedIdWorld).2)
      = [{ from_id := 1, to_id := 9007199254740992, content := "hi" }] ∧
    writesOf (effectsSince roundedIdWorld
        (dispatch sampleEnv 1 ⟨"chat_message", JVal.obj chatFieldsBig⟩ roundedIdWorld).2)
      = [(40, relayedChat sampleEnv 1 "alice" 9007199254740992 "hi")] :=
  ⟨by decide, by decide, by decide, by decide, by decide, rfl, by decide, by decide, by decide⟩

/-- C7, amended. A `chat_message` frame with payload `to`, `content` from a
connection bound to `uid`, where `to` is an integer that `float64` holds
exactly, the nickname lookup succeeds and `to` has no registry entry:
exactly one insert is executed, with `uid`, `to` and `content`, and the row is
in the table iff that insert succeeds; nothing is written to any connection;
the loop goes on and the registry is unchanged. -/
theorem chat_to_absent_recipient (env : Env) (uid : Int)
    (fields : List (String × JVal)) (toID : Int) (content : String) (w : World) (nick : String)
    (hexact : float64OfInt toID = some toID)
    (hto : fields.lookup "to" = decodedInt toID)
    (hrange : -(2 : Int) ^ 63 ≤ toID ∧ toID < (2 : Int) ^ 63)
    (hcontent : fields.lookup "content" = some (JVal.str content))
    (hnick : env.nickname uid = some nick)
    (habsent : w.users.get toID = none) :
    insertsOf (effectsSince w (dispatch env uid ⟨"chat_message", JVal.obj fields⟩ w).2)
      = [{ from_id := uid, to_id := toID, content := content }] ∧
    (dispatch env uid ⟨"chat_message", JVal.obj fields⟩ w).2.chat_messages
      = (if env.insertOk uid toID content
          then w.chat_messages ++ [{ from_id := uid, to_id := toID, content := content }]
          else w.chat_messages) ∧
    writesOf (effectsSince w (dispatch env uid ⟨"chat_message", JVal.obj fields⟩ w).2) = [] ∧
    (dispatch env uid ⟨"chat_message", JVal.obj fields⟩ w).1 = Flow.next ∧
    (dispatch env uid ⟨"chat_message", JVal.obj fields⟩ w).2.users = w.users := by
  rw [decodedInt_exact toID hexact] at hto
  rw [dispatch_chat_message, onChatMessage_wellformed env uid fields _ content w hto hcontent,
    goInt_intCast toID hrange]
  simp only [hnick, habsent, effectsSince]
  by_cases hi : env.insertOk uid toID content = true
  · simp [hi, insertsOf, writesOf]
  · simp [hi, insertsOf, writesOf]

/-- Witness of C7: user 1 (alice) sends "x" to user 99, who is not connected. -/
theorem chat_to_absent_recipient_witness :
    insertsOf (effectsSince sampleWorld
        (dispatch sampleEnv 1 ⟨"chat_message", JVal.obj chatFieldsAbsent⟩ sampleWorld).2)
      = [{ from_id := 1, to_id := 99, content := "x" }] ∧
    (dispatch sampleEnv 1 ⟨"chat_message", JVal.obj chatFieldsAbsent⟩ sampleWorld).2.chat_messages
      = [{ from_id := 1, to_id := 99, content := "x" }] ∧
    writesOf (effectsSince sampleWorld
        (dispatch sampleEnv 1 ⟨"chat_message", JVal.obj chatFieldsAbsent⟩ sampleWorld).2) = [] ∧
    (dispatch sampleEnv 1 ⟨"chat_message", JVal.obj chatFieldsAbsent⟩ sampleWorld).1
      = Flow.next ∧
    (dispatch sampleEnv 1 ⟨"chat_message", JVal.obj chatFieldsAbsent⟩ sampleWorld).2.users
      = [(1, 10), (2, 20)] :=
  chat_to_absent_recipient sampleEnv 1 chatFieldsAbsent 99 "x" sampleWorld "alice" (by decide)
    rfl (by norm_num) rfl rfl rfl

/-- A frame whose type is none of the three the switch knows is ignored. -/
theorem dispatch_unknown_type (env : Env) (uid : Int) (msg : Msg) (w : World)
    (h1 : msg.msgType ≠ "requestUserList") (h2 : msg.msgType ≠ "chat_message")
    (h3 : msg.msgType ≠ "typing_status") :
    dispatch env uid msg w = (Flow.next, w) := by
  simp [dispatch, h1, h2, h3]

/-- A `chat_message` or `typing_status` frame whose content is not an object
is ignored: the two-value type assertion on `msg.Content` yields `ok = false`. -/
theorem dispatch_content_not_object (env : Env) (uid : Int) (content : JVal) (w : World)
    (h : ∀ fields, content ≠ JVal.obj fields) :
    dispatch env uid ⟨"chat_message", content⟩ w = (Flow.next, w) ∧
    dispatch env uid ⟨"typing_status", content⟩ w = (Flow.next, w) := by
  rw [dispatch_chat_message, dispatch_typing_status]
  cases content with
  | obj fields => exact absurd rfl (h fields)
  | _ => exact ⟨rfl, rfl⟩

/-- A `chat_message` frame whose content is an object without a number under
`"to"`, or without a string under `"content"`, makes the handler panic in
one of the single-value type assertions. -/
theorem dispatch_chat_message_panics (env : Env) (uid : Int) (fields : List (String × JVal))
    (w : World)
    (h : assertFloat64 (fields.lookup "to") = none ∨
      assertString (fields.lookup "content") = none) :
    dispatch env uid ⟨"chat_message", JVal.obj fields⟩ w = (Flow.panicked, w) := by
  rw [dispatch_chat_message]
  rcases h with h | h
  · simp [onChatMessage, h]
  · cases hf : assertFloat64 (fields.lookup "to") <;> simp [onChatMessage, h, hf]

/-- A `typing_status` frame whose content is an object without a number under
`"to"`, or without a boolean under `"isTyping"`, makes the handler panic in
one of the single-value type assertions. -/
theorem dispatch_typing_status_panics (env : Env) (uid : Int) (fields : List (String × JVal))
    (w : World)
    (h : assertFloat64 (fields.lookup "to") = none ∨
      assertBool (fields.lookup "isTyping") = none) :
    dispatch env uid ⟨"typing_status", JVal.obj fields⟩ w = (Flow.panicked, w) := by
  rw [dispatch_typing_status]
  rcases h with h | h
  · simp [onTypingStatus, h]
  · cases hf : assertFloat64 (fields.lookup "to") <;> simp [onTypingStatus, h, hf]

/-- C4 (evaluation at failing inputs). A `chat_message` frame whose content is
the empty object, one without `content`, one whose `to` is a string, and a
`typing_status` frame without `isTyping` each end the dispatch step in a
panic. When user 1 connects on connection 10 and sends the empty-object chat
message followed by a well-formed typing notification for user 2, the handler
is unwound by the panic: the second frame is never read (the only frames
written are the two presence lists of the accept), connection 10 is closed,
and its registry entry stays behind. -/
theorem malformed_payload_panics :
    (dispatch sampleEnv 1 ⟨"chat_message", JVal.obj []⟩ sampleWorld).1 = Flow.panicked ∧
    (dispatch sampleEnv 1 ⟨"chat_message", JVal.obj [("to", JVal.num 2)]⟩ sampleWorld).1
      = Flow.panicked ∧
    (dispatch sampleEnv 1
      ⟨"chat_message", JVal.obj [("to", JVal.str "2"), ("content", JVal.str "hi")]⟩
      sampleWorld).1 = Flow.panicked ∧
    (dispatch sampleEnv 1 ⟨"typing_status", JVal.obj [("to", JVal.num 2)]⟩ sampleWorld).1
      = Flow.panicked ∧
    (handleWebSocket sampleEnv ⟨some 10, [("user_id", "1")]⟩
      [ReadResult.frame ⟨"chat_message", JVal.obj []⟩,
       ReadResult.frame ⟨"typing_status", JVal.obj typingFields⟩] bobOnly).users
      = [(1, 10), (2, 20)] ∧
    (handleWebSocket sampleEnv ⟨some 10, [("user_id", "1")]⟩
      [ReadResult.frame ⟨"chat_message", JVal.obj []⟩,
       ReadResult.frame ⟨"typing_status", JVal.obj typingFields⟩] bobOnly).trace
      = [Effect.lock, Effect.unlock, Effect.rlock,
         Effect.write 10 (OutFrame.userList [⟨1, "alice", true⟩, ⟨2, "bob", true⟩]),
         Effect.write 20 (OutFrame.userList [⟨1, "alice", true⟩, ⟨2, "bob", true⟩]),
         Effect.runlock, Effect.close 10] := by
  decide

/-! ## The presence snapshot (C5) and the cleanup after a failed read (C9) -/

/-- The registry of `sampleWorld` is the one two accepts build from the empty
registry. -/
theorem sampleWorld_reached :
    (register 1 10 (register 2 20 ⟨[], [], []⟩)).users = sampleWorld.users := by
  decide

theorem onlineInSnapshot_scanUsers (users : Registry) (rows : List (Option (Int × String)))
    (id : Int) :
    onlineInSnapshot (scanUsers users rows) id = true ↔
      (users.get id).isSome = true ∧ ∃ nick, some (id, nick) ∈ rows := by
  simp only [onlineInSnapshot, List.any_eq_true, Bool.and_eq_true, decide_eq_true_eq,
    scanUsers_mem]
  constructor
  · rintro ⟨e, ⟨hrow, hstatus⟩, hid, htrue⟩
    subst hid
    exact ⟨hstatus ▸ htrue, e.nickname, hrow⟩
  · rintro ⟨hsome, nick, hrow⟩
    exact ⟨⟨id, nick, true⟩, ⟨hrow, hsome.symm⟩, rfl, rfl⟩

theorem broadcastOnlineUsers_effects (env : Env) (w : World) :
    effectsSince w (broadcastOnlineUsers env w) = broadcastEffects env w.users := by
  simp [effectsSince, broadcastOnlineUsers_eq, World.emit]

/-- C5 as stated fails. After user 3 connects on connection 30 while the
directory lists only the users 1 and 2, user 3 has a registry entry, but the
presence list that `broadcastOnlineUsers` sends to the three connections has
no entry for id 3: the ids with status true are not the registered ids. -/
theorem snapshot_misses_registered_id :
    (register 3 30 sampleWorld).users.get 3 = some 30 ∧
    writesOf (effectsSince (register 3 30 sampleWorld)
        (broadcastOnlineUsers sampleEnv (register 3 30 sampleWorld)))
      = [(30, OutFrame.userList [⟨1, "alice", true⟩, ⟨2, "bob", true⟩]),
         (10, OutFrame.userList [⟨1, "alice", true⟩, ⟨2, "bob", true⟩]),
         (20, OutFrame.userList [⟨1, "alice", true⟩, ⟨2, "bob", true⟩])] ∧
    ¬ (∀ id : Int,
        onlineInSnapshot [⟨1, "alice", true⟩, ⟨2, "bob", true⟩] id = true ↔
          ((register 3 30 sampleWorld).users.get id).isSome = true) := by
  refine ⟨by decide, by decide, ?_⟩
  intro h
  exact absurd ((h 3).2 (by decide)) (by decide)

/-- C5, amended. When the directory fetch succeeds, every registered
connection is sent the presence list computed from the rows and the registry.
That list has an entry exactly for the rows (that scan) of the directory,
each with status true iff its id has a registry entry. So an id has status
true in the list exactly when it has a registry entry and a directory row;
an id without a directory row (registered or not) has no entry in the list
at all; and every registered id that the directory lists is in the list
with status true. -/
theorem snapshot_online_iff (env : Env) (w : World) (rows : List (Option (Int × String)))
    (id : Int) (hrows : env.allUsers = some rows) :
    writesOf (effectsSince w (broadcastOnlineUsers env w))
      = w.users.map (fun e => (e.2, OutFrame.userList (scanUsers w.users rows))) ∧
    (onlineInSnapshot (scanUsers w.users rows) id = true ↔
      (w.users.get id).isSome = true ∧ ∃ nick, some (id, nick) ∈ rows) ∧
    (∀ e, e ∈ scanUsers w.users rows ↔
      some (e.id, e.nickname) ∈ rows ∧ e.status = (w.users.get e.id).isSome) ∧
    ((¬ ∃ nick, some (id, nick) ∈ rows) → ∀ e ∈ scanUsers w.users rows, e.id ≠ id) ∧
    (∀ nick, some (id, nick) ∈ rows → (w.users.get id).isSome = true →
      (⟨id, nick, true⟩ : UserEntry) ∈ scanUsers w.users rows) := by
  refine ⟨?_, onlineInSnapshot_scanUsers w.users rows id, scanUsers_mem w.users rows, ?_, ?_⟩
  · rw [broadcastOnlineUsers_effects, writesOf_broadcastEffects, hrows]
  · intro hnone e he heq
    exact hnone ⟨e.nickname, heq ▸ ((scanUsers_mem w.users rows e).1 he).1⟩
  · intro nick hrow hsome
    exact (scanUsers_mem w.users rows ⟨id, nick, true⟩).2 ⟨hrow, hsome.symm⟩

/-- Witness of C5: with users 1 and 2 connected and both in the directory,
both connections get the list, and user 1 is online in it. After user 3, who
is not in the directory, has connected on connection 30, the list has no
entry for id 3. -/
theorem snapshot_online_iff_witness :
    (writesOf (effectsSince sampleWorld (broadcastOnlineUsers sampleEnv sampleWorld))
      = [(10, OutFrame.userList [⟨1, "alice", true⟩, ⟨2, "bob", true⟩]),
         (20, OutFrame.userList [⟨1, "alice", true⟩, ⟨2, "bob", true⟩])] ∧
    (onlineInSnapshot [⟨1, "alice", true⟩, ⟨2, "bob", true⟩] 1 = true ↔
      (sampleWorld.users.get 1).isSome = true ∧
        ∃ nick, some ((1 : Int), nick) ∈ [some ((1 : Int), "alice"), some (2, "bob")])) ∧
    ((register 3 30 sampleWorld).users.get 3 = some 30 ∧
      ∀ e ∈ scanUsers (register 3 30 sampleWorld).users [some (1, "alice"), some (2, "bob")],
        e.id ≠ 3) :=
  ⟨⟨(snapshot_online_iff sampleEnv sampleWorld [some (1, "alice"), some (2, "bob")] 1 rfl).1,
    (snapshot_online_iff sampleEnv sampleWorld [some (1, "alice"), some (2, "bob")] 1 rfl).2.1⟩,
   by decide,
   (snapshot_online_iff sampleEnv (register 3 30 sampleWorld)
      [some (1, "alice"), some (2, "bob")] 3 rfl).2.2.2.1 (by simp)⟩

theorem Atoi_examples :
    Atoi "12" = some 12 ∧ Atoi "-7" = some (-7) ∧ Atoi "+7" = some 7 ∧ Atoi "" = none ∧
    Atoi "abc" = none ∧ Atoi "1x" = none ∧ Atoi "-" = none ∧ Atoi " 1" = none ∧
    Atoi "9223372036854775807" = some 9223372036854775807 ∧
    Atoi "9223372036854775808" = none := by
  decide

/-- C10. When the `user_id` query value is missing or empty, or `strconv.Atoi`
rejects it, `handleWebSocket` returns with the registry and the table
unchanged, having done nothing but close its own connection (or log the
failed upgrade): no other connection is closed and no broadcast is run. When
the upgrade succeeds and the value parses to `uid`, the handler is exactly the
registration of its connection under `uid` followed by broadcast and loop,
so the connection is stored under the parsed integer. -/
theorem user_id_validation (env : Env) (req : Request) (reads : List ReadResult) (w : World) :
    ((queryGet req.query "user_id" = "" ∨ Atoi (queryGet req.query "user_id") = none) →
      (handleWebSocket env req reads w).users = w.users ∧
      (handleWebSocket env req reads w).chat_messages = w.chat_messages ∧
      effectsSince w (handleWebSocket env req reads w)
        = (match req.upgrade with
          | none => [Effect.log "WebSocket upgrade error"]
          | some conn => [Effect.close conn])) ∧
    (∀ conn uid, req.upgrade = some conn → queryGet req.query "user_id" ≠ "" →
      Atoi (queryGet req.query "user_id") = some uid →
      handleWebSocket env req reads w = serve env uid conn reads w ∧
      (handleWebSocket env req [] w).users = w.users.set uid conn ∧
      (handleWebSocket env req [] w).users.entriesOf uid = [(uid, conn)]) := by
  constructor
  · intro hbad
    unfold handleWebSocket
    cases hup : req.upgrade with
    | none => simp [effectsSince, World.emit]
    | some conn =>
        rcases hbad with hbad | hbad
        · simp [hbad, effectsSince, World.emit]
        · by_cases he : queryGet req.query "user_id" = ""
          · simp [he, effectsSince, World.emit]
          · simp [he, hbad, effectsSince, World.emit]
  · intro conn uid hup hne hparse
    have heq : ∀ rs, handleWebSocket env req rs w = serve env uid conn rs w := by
      intro rs
      simp [handleWebSocket, hup, hne, hparse]
    refine ⟨heq reads, ?_, ?_⟩
    · rw [heq, serve_nil_users]
    · rw [heq, serve_nil_users, Registry.entriesOf_set_self]

/-- Witness of C10: requests without `user_id` and with `user_id=abc` leave
the registry alone and only close their own connection 11; a request with
`user_id=3` stores connection 11 under 3. -/
theorem user_id_validation_witness :
    (handleWebSocket sampleEnv ⟨some 11, []⟩ [] sampleWorld).users = sampleWorld.users ∧
    effectsSince sampleWorld (handleWebSocket sampleEnv ⟨some 11, [("user_id", "abc")]⟩ []
      sampleWorld) = [Effect.close 11] ∧
    (handleWebSocket sampleEnv ⟨some 11, [("user_id", "3")]⟩ [] sampleWorld).users
      = sampleWorld.users.set 3 11 :=
  ⟨((user_id_validation sampleEnv ⟨some 11, []⟩ [] sampleWorld).1 (Or.inl (by decide))).1,
   ((user_id_validation sampleEnv ⟨some 11, [("user_id", "abc")]⟩ [] sampleWorld).1
      (Or.inr (by decide))).2.2,
   ((user_id_validation sampleEnv ⟨some 11, [("user_id", "3")]⟩ [] sampleWorld).2 11 3 rfl
      (by decide) (by decide)).2.1⟩

/-! ## Delivery of the presence list (C11) and `requestUserList` (C12) -/

/-- C11. When the directory fetch succeeds, `broadcastOnlineUsers` calls
`WriteJSON` once for each registry entry, in the order of the entries, each
time with the same `userList` message, whatever the writes return (the
statement holds for every `env.writeOk`, so a failed write does not stop the
loop). When the directory fetch fails, nothing is written. -/
theorem broadcast_writes_each_connection (env : Env) (w : World) :
    (∀ rows, env.allUsers = some rows →
      writesOf (effectsSince w (broadcastOnlineUsers env w))
        = w.users.map (fun e => (e.2, OutFrame.userList (scanUsers w.users rows)))) ∧
    (env.allUsers = none → writesOf (effectsSince w (broadcastOnlineUsers env w)) = []) ∧
    (broadcastOnlineUsers env w).users = w.users := by
  refine ⟨?_, ?_, ?_⟩
  · intro rows hrows
    rw [broadcastOnlineUsers_effects, writesOf_broadcastEffects, hrows]
  · intro hnone
    rw [broadcastOnlineUsers_effects, writesOf_broadcastEffects, hnone]
  · rw [broadcastOnlineUsers_eq]
    rfl

/-- Witness of C11: the write to connection 10 fails (and is logged), the write
to connection 20 is made all the same; with a failing fetch nothing is
written. -/
theorem broadcast_writes_each_connection_witness :
    effectsSince sampleWorld (broadcastOnlineUsers flakyEnv sampleWorld)
      = [Effect.rlock,
         Effect.write 10 (OutFrame.userList [⟨1, "alice", true⟩, ⟨2, "bob", true⟩]),
         Effect.log "Error sending user list",
         Effect.write 20 (OutFrame.userList [⟨1, "alice", true⟩, ⟨2, "bob", true⟩]),
         Effect.runlock] ∧
    writesOf (effectsSince sampleWorld (broadcastOnlineUsers flakyEnv sampleWorld))
      = [(10, OutFrame.userList [⟨1, "alice", true⟩, ⟨2, "bob", true⟩]),
         (20, OutFrame.userList [⟨1, "alice", true⟩, ⟨2, "bob", true⟩])] ∧
    writesOf (effectsSince sampleWorld (broadcastOnlineUsers failingEnv sampleWorld)) = [] :=
  ⟨by decide,
   (broadcast_writes_each_connection flakyEnv sampleWorld).1
     [some (1, "alice"), some (2, "bob")] rfl,
   (broadcast_writes_each_connection failingEnv sampleWorld).2.1 rfl⟩

theorem onRequestUserList_effects (env : Env) (uid : Int) (w : World) :
    effectsSince w (onRequestUserList env uid w) =
      match w.users.get uid with
      | some _ => [Effect.rlock] ++ broadcastEffects env w.users ++ [Effect.runlock]
      | none => [Effect.rlock, Effect.runlock] := by
  unfold onRequestUserList effectsSince
  simp only [broadcastOnlineUsers_eq, World.emit]
  cases w.users.get uid <;> simp

theorem dispatch_requestUserList (env : Env) (uid : Int) (content : JVal) (w : World) :
    dispatch env uid ⟨"requestUserList", content⟩ w = (Flow.next, onRequestUserList env uid w) := by
  simp [dispatch]

/-- C12 as stated fails. Connection 10 was registered for user 1 and has been
replaced by connection 11; a `requestUserList` frame handled by the handler of
connection 10 (bound to user id 1) still runs a broadcast, to the connections
11 and 20, because the switch only asks whether user id 1 has an entry. -/
theorem request_from_replaced_connection_broadcasts :
    sampleWorld.users.get 1 = some 10 ∧
    (register 1 11 sampleWorld).users.get 1 = some 11 ∧
    writesOf (effectsSince (register 1 11 sampleWorld)
        (dispatch sampleEnv 1 ⟨"requestUserList", JVal.null⟩ (register 1 11 sampleWorld)).2)
      = [(11, OutFrame.userList [⟨1, "alice", true⟩, ⟨2, "bob", true⟩]),
         (20, OutFrame.userList [⟨1, "alice", true⟩, ⟨2, "bob", true⟩])] := by
  decide

/-- C12, amended. A `requestUserList` frame on a connection bound to `uid`:
the loop goes on and the registry is unchanged. When `uid` has a registry
entry (whichever connection it holds), `broadcastOnlineUsers` is run once,
under the read lock; when its directory fetch succeeds it writes the
`userList` message to every registry entry, when the fetch fails it writes
nothing. When `uid` has no entry, no broadcast is run. -/
theorem request_user_list (env : Env) (uid : Int) (content : JVal) (w : World) :
    (dispatch env uid ⟨"requestUserList", content⟩ w).1 = Flow.next ∧
    (dispatch env uid ⟨"requestUserList", content⟩ w).2.users = w.users ∧
    (∀ c, w.users.get uid = some c →
      effectsSince w (dispatch env uid ⟨"requestUserList", content⟩ w).2
        = [Effect.rlock] ++ broadcastEffects env w.users ++ [Effect.runlock] ∧
      (∀ rows, env.allUsers = some rows →
        writesOf (effectsSince w (dispatch env uid ⟨"requestUserList", content⟩ w).2)
          = w.users.map (fun e => (e.2, OutFrame.userList (scanUsers w.users rows)))) ∧
      (env.allUsers = none →
        writesOf (effectsSince w (dispatch env uid ⟨"requestUserList", content⟩ w).2) = [])) ∧
    (w.users.get uid = none →
      effectsSince w (dispatch env uid ⟨"requestUserList", content⟩ w).2
        = [Effect.rlock, Effect.runlock]) := by
  rw [dispatch_requestUserList]
  refine ⟨rfl, ?_, ?_, ?_⟩
  · show (onRequestUserList env uid w).users = w.users
    unfold onRequestUserList
    simp only [broadcastOnlineUsers_eq, World.emit]
    cases w.users.get uid <;> rfl
  · intro c hc
    have heff : effectsSince w (onRequestUserList env uid w)
        = [Effect.rlock] ++ broadcastEffects env w.users ++ [Effect.runlock] := by
      rw [onRequestUserList_effects, hc]
    refine ⟨heff, ?_, ?_⟩
    · intro rows hrows
      show writesOf (effectsSince w (onRequestUserList env uid w)) = _
      rw [heff]
      simp [writesOf, writesOf_append, writesOf_broadcastEffects, hrows]
    · intro hnone
      show writesOf (effectsSince w (onRequestUserList env uid w)) = _
      rw [heff]
      simp [writesOf, writesOf_append, writesOf_broadcastEffects, hnone]
  · intro hnone
    show effectsSince w (onRequestUserList env uid w) = _
    rw [onRequestUserList_effects, hnone]

/-- Witness of C12: user 1, registered on connection 10, asks for the list;
both connections get it. User 3, who has no entry, asks: nothing is sent. -/
theorem request_user_list_witness :
    writesOf (effectsSince sampleWorld
        (dispatch sampleEnv 1 ⟨"requestUserList", JVal.null⟩ sampleWorld).2)
      = [(10, OutFrame.userList [⟨1, "alice", true⟩, ⟨2, "bob", true⟩]),
         (20, OutFrame.userList [⟨1, "alice", true⟩, ⟨2, "bob", true⟩])] ∧
    effectsSince sampleWorld
        (dispatch sampleEnv 3 ⟨"requestUserList", JVal.null⟩ sampleWorld).2
      = [Effect.rlock, Effect.runlock] :=
  ⟨((request_user_list sampleEnv 1 JVal.null sampleWorld).2.2.1 10 rfl).2.1
      [some (1, "alice"), some (2, "bob")] rfl,
   (request_user_list sampleEnv 3 JVal.null sampleWorld).2.2.2 rfl⟩

/-! ## Deregistration (C13) -/

theorem Registry.delete_of_get_none (users : Registry) (uid : Int)
    (h : users.get uid = none) : users.delete uid = users := by
  induction users with
  | nil => rfl
  | cons e rest ih =>
      obtain ⟨k, c⟩ := e
      by_cases hk : k = uid
      · simp [Registry.get, hk] at h
      · simp only [Registry.get, hk, if_false] at h
        have ih2 := ih h
        simp only [Registry.delete] at ih2
        simp [Registry.delete, List.filter_cons, hk, ih2]

theorem Registry.delete_delete (users : Registry) (uid : Int) :
    (users.delete uid).delete uid = users.delete uid :=
  Registry.delete_of_get_none (users.delete uid) uid (Registry.get_delete_self users uid)

theorem deregister_users (uid : Int) (w : World) :
    (deregister uid w).users = w.users.delete uid := rfl

theorem deregister_effects (uid : Int) (w : World) :
    effectsSince w (deregister uid w) = [Effect.lock, Effect.unlock] := by
  simp [effectsSince, deregister, World.emit]

/-- The error branch of the read is the deregistration followed by the
broadcast. -/
theorem readFailed_eq_deregister (env : Env) (uid : Int) (b : Bool) (w : World) :
    readFailed env uid b w =
      broadcastOnlineUsers env
        (deregister uid (if b then w.emit [Effect.log "WebSocket error"] else w)) := rfl

/-- C13. The deregistration step (lines 72 to 74) for a user id without an
entry leaves the registry and the table as they were and does nothing but
take and release the lock (the step has no failing outcome); and in every
state `w2`, deregistering twice gives the registry that deregistering once
gives. -/
theorem deregister_idempotent (uid : Int) (w w2 : World) (habsent : w.users.get uid = none) :
    (deregister uid w).users = w.users ∧
    (deregister uid w).chat_messages = w.chat_messages ∧
    effectsSince w (deregister uid w) = [Effect.lock, Effect.unlock] ∧
    (deregister uid (deregister uid w2)).users = (deregister uid w2).users := by
  refine ⟨?_, rfl, deregister_effects uid w, ?_⟩
  · rw [deregister_users, Registry.delete_of_get_none w.users uid habsent]
  · rw [deregister_users, deregister_users, Registry.delete_delete]

/-- Witness of C13: user 3 has no entry in `sampleWorld`; after it has
connected on connection 30 it is deregistered twice. -/
theorem deregister_idempotent_witness :
    sampleWorld.users.get 3 = none ∧
    (deregister 3 sampleWorld).users = [(1, 10), (2, 20)] ∧
    (deregister 3 sampleWorld).chat_messages = [] ∧
    effectsSince sampleWorld (deregister 3 sampleWorld) = [Effect.lock, Effect.unlock] ∧
    (deregister 3 (deregister 3 (register 3 30 sampleWorld))).users
      = (deregister 3 (register 3 30 sampleWorld)).users :=
  ⟨by decide, deregister_idempotent 3 sampleWorld (register 3 30 sampleWorld) (by decide)⟩

/-! ## Closing under the lock (C14) -/

theorem heldAfter_append (h : Nat) (xs ys : List Effect) :
    heldAfter h (xs ++ ys) = heldAfter (heldAfter h xs) ys := by
  induction xs generalizing h with
  | nil => rfl
  | cons e rest ih => cases e <;> simp [heldAfter, ih]

theorem closesWhileLocked_append (h : Nat) (xs ys : List Effect) :
    closesWhileLocked h (xs ++ ys)
      = closesWhileLocked h xs ++ closesWhileLocked (heldAfter h xs) ys := by
  induction xs generalizing h with
  | nil => rfl
  | cons e rest ih => cases e <;> simp [closesWhileLocked, heldAfter, ih]

theorem closesWhileUnlocked_append (h : Nat) (xs ys : List Effect) :
    closesWhileUnlocked h (xs ++ ys)
      = closesWhileUnlocked h xs ++ closesWhileUnlocked (heldAfter h xs) ys := by
  induction xs generalizing h with
  | nil => rfl
  | cons e rest ih => cases e <;> simp [closesWhileUnlocked, heldAfter, ih]

theorem closesWhileLocked_of_closesOf_nil (h : Nat) (es : List Effect)
    (hnil : closesOf es = []) :
    closesWhileLocked h es = [] ∧ closesWhileUnlocked h es = [] := by
  induction es generalizing h with
  | nil => exact ⟨rfl, rfl⟩
  | cons e rest ih =>
      cases e <;> simp [closesOf] at hnil <;>
        simpa [closesWhileLocked, closesWhileUnlocked] using ih _ hnil

theorem quiet_nil : Quiet [] := ⟨rfl, fun _ => rfl⟩

theorem quiet_append (xs ys : List Effect) (hx : Quiet xs) (hy : Quiet ys) :
    Quiet (xs ++ ys) := by
  refine ⟨?_, ?_⟩
  · rw [closesOf_append, hx.1, hy.1]
    rfl
  · intro h
    rw [heldAfter_append, hx.2, hy.2]

theorem quiet_rlocked (es : List Effect) (hq : Quiet es) :
    Quiet ([Effect.rlock] ++ es ++ [Effect.runlock]) := by
  refine ⟨?_, ?_⟩
  · simp [closesOf, closesOf_append, hq.1]
  · intro h
    simp [heldAfter, heldAfter_append, hq.2]

theorem quiet_locked (es : List Effect) (hq : Quiet es) :
    Quiet ([Effect.lock] ++ es ++ [Effect.unlock]) := by
  refine ⟨?_, ?_⟩
  · simp [closesOf, closesOf_append, hq.1]
  · intro h
    simp [heldAfter, heldAfter_append, hq.2]

theorem quiet_write (c : Conn) (frame : OutFrame) : Quiet [Effect.write c frame] :=
  ⟨rfl, fun _ => rfl⟩

theorem quiet_insert (a b : Int) (c : String) : Quiet [Effect.insert a b c] :=
  ⟨rfl, fun _ => rfl⟩

theorem quiet_log (text : String) : Quiet [Effect.log text] :=
  ⟨rfl, fun _ => rfl⟩

theorem quiet_sendAll (env : Env) (message : OutFrame) (users : Registry) :
    Quiet (sendAll env message users) := by
  induction users with
  | nil => exact quiet_nil
  | cons e rest ih =>
      obtain ⟨k, c⟩ := e
      unfold sendAll
      apply quiet_append _ _ _ ih
      by_cases h : env.writeOk c = true
      · simp only [h, if_true]
        exact quiet_write c message
      · simp only [h]
        exact quiet_append _ _ (quiet_write c message) (quiet_log _)

theorem quiet_broadcastEffects (env : Env) (users : Registry) :
    Quiet (broadcastEffects env users) := by
  unfold broadcastEffects
  cases env.allUsers with
  | none => exact quiet_rlocked _ (quiet_log _)
  | some rows => exact quiet_rlocked _ (quiet_sendAll env _ users)

theorem quietStep_refl (w : World) : QuietStep w w :=
  ⟨[], by simp, quiet_nil⟩

theorem quietStep_trans (w w1 w2 : World) (h1 : QuietStep w w1) (h2 : QuietStep w1 w2) :
    QuietStep w w2 := by
  obtain ⟨es1, ht1, hq1⟩ := h1
  obtain ⟨es2, ht2, hq2⟩ := h2
  exact ⟨es1 ++ es2, by rw [ht2, ht1, List.append_assoc], quiet_append _ _ hq1 hq2⟩

theorem quietStep_emit (w : World) (es : List Effect) (hq : Quiet es) :
    QuietStep w (w.emit es) :=
  ⟨es, rfl, hq⟩

theorem quietStep_broadcastOnlineUsers (env : Env) (w : World) :
    QuietStep w (broadcastOnlineUsers env w) := by
  rw [broadcastOnlineUsers_eq]
  exact quietStep_emit w _ (quiet_broadcastEffects env w.users)

theorem quietStep_readFailed (env : Env) (uid : Int) (b : Bool) (w : World) :
    QuietStep w (readFailed env uid b w) := by
  refine ⟨_, readFailed_trace env uid b w, ?_⟩
  apply quiet_append _ _ _ (quiet_broadcastEffects env _)
  apply quiet_append
  · cases b
    · exact quiet_nil
    · exact quiet_log _
  · exact quiet_locked [] quiet_nil

theorem quietStep_onRequestUserList (env : Env) (uid : Int) (w : World) :
    QuietStep w (onRequestUserList env uid w) := by
  have htrace : (onRequestUserList env uid w).trace
      = w.trace ++ effectsSince w (onRequestUserList env uid w) := by
    unfold onRequestUserList effectsSince
    simp only [broadcastOnlineUsers_eq, World.emit]
    cases w.users.get uid <;> simp
  refine ⟨_, htrace, ?_⟩
  rw [onRequestUserList_effects]
  cases w.users.get uid with
  | none => exact quiet_rlocked [] quiet_nil
  | some c => exact quiet_rlocked _ (quiet_broadcastEffects env w.users)

theorem assertFloat64_eq_some (x : Option JVal) (f : ℚ) (h : assertFloat64 x = some f) :
    x = some (JVal.num f) := by
  cases x with
  | none => simp [assertFloat64] at h
  | some v => cases v <;> simp_all [assertFloat64]

theorem assertString_eq_some (x : Option JVal) (t : String) (h : assertString x = some t) :
    x = some (JVal.str t) := by
  cases x with
  | none => simp [assertString] at h
  | some v => cases v <;> simp_all [assertString]

theorem assertBool_eq_some (x : Option JVal) (b : Bool) (h : assertBool x = some b) :
    x = some (JVal.bool b) := by
  cases x with
  | none => simp [assertBool] at h
  | some v => cases v <;> simp_all [assertBool]

theorem quietStep_onChatMessage (env : Env) (uid : Int) (content : JVal) (w : World) :
    QuietStep w (onChatMessage env uid content w).2 := by
  have hrefl := quietStep_refl w
  cases content with
  | obj fields =>
      cases hf : assertFloat64 (fields.lookup "to") with
      | none =>
          have h := dispatch_chat_message_panics env uid fields w (Or.inl hf)
          rw [dispatch_chat_message] at h
          rw [h]
          exact hrefl
      | some f =>
          cases hc : assertString (fields.lookup "content") with
          | none =>
              have h := dispatch_chat_message_panics env uid fields w (Or.inr hc)
              rw [dispatch_chat_message] at h
              rw [h]
              exact hrefl
          | some text =>
              rw [onChatMessage_wellformed env uid fields f text w
                (assertFloat64_eq_some _ _ hf) (assertString_eq_some _ _ hc)]
              cases env.nickname uid with
              | none => exact hrefl
              | some nick =>
                  by_cases hi : env.insertOk uid (goInt f) text = true
                  · simp only [hi, if_true]
                    refine ⟨_, rfl, ?_⟩
                    have h1 : Quiet ([Effect.insert uid (goInt f) text]
                        ++ ([Effect.rlock] ++ (w.users.get (goInt f)).toList.map
                            (fun rc => Effect.write rc (relayedChat env uid nick (goInt f) text))
                          ++ [Effect.runlock])) := by
                      apply quiet_append _ _ (quiet_insert _ _ _)
                      apply quiet_rlocked
                      cases w.users.get (goInt f) with
                      | none => exact quiet_nil
                      | some rc => exact quiet_write _ _
                    simpa using h1
                  · simp only [hi]
                    exact ⟨_, rfl, quiet_append _ _ (quiet_insert _ _ _) (quiet_log _)⟩
  | _ => exact hrefl

theorem quietStep_onTypingStatus (uid : Int) (content : JVal) (w : World) :
    QuietStep w (onTypingStatus uid content w).2 := by
  have hrefl := quietStep_refl w
  cases content with
  | obj fields =>
      cases hf : assertFloat64 (fields.lookup "to") with
      | none =>
          have h := dispatch_typing_status_panics failingEnv uid fields w (Or.inl hf)
          rw [dispatch_typing_status] at h
          rw [h]
          exact hrefl
      | some f =>
          cases hc : assertBool (fields.lookup "isTyping") with
          | none =>
              have h := dispatch_typing_status_panics failingEnv uid fields w (Or.inr hc)
              rw [dispatch_typing_status] at h
              rw [h]
              exact hrefl
          | some b =>
              rw [onTypingStatus_wellformed uid fields f b w
                (assertFloat64_eq_some _ _ hf) (assertBool_eq_some _ _ hc)]
              refine ⟨_, rfl, ?_⟩
              apply quiet_rlocked
              cases w.users.get (goInt f) with
              | none => exact quiet_nil
              | some rc => exact quiet_write _ _
  | _ => exact hrefl

theorem quietStep_dispatch (env : Env) (uid : Int) (msg : Msg) (w : World) :
    QuietStep w (dispatch env uid msg w).2 := by
  unfold dispatch
  split
  · exact quietStep_onRequestUserList env uid w
  · split
    · exact quietStep_onChatMessage env uid msg.Content w
    · split
      · exact quietStep_onTypingStatus uid msg.Content w
      · exact quietStep_refl w

theorem quietStep_loopStep (env : Env) (uid : Int) (r : ReadResult) (w : World) :
    QuietStep w (loopStep env uid r w).2 := by
  cases r with
  | frame msg => exact quietStep_dispatch env uid msg w
  | error b => exact quietStep_readFailed env uid b w

theorem quietStep_loop (env : Env) (uid : Int) (reads : List ReadResult) (w : World) :
    QuietStep w (loop env uid reads w).2 := by
  induction reads generalizing w with
  | nil => exact quietStep_refl w
  | cons r rest ih =>
      have hstep := quietStep_loopStep env uid r w
      unfold loop
      cases hres : loopStep env uid r w with
      | mk flow w1 =>
          rw [hres] at hstep
          cases flow with
          | next => exact quietStep_trans _ _ _ hstep (ih w1)
          | exit => exact hstep
          | panicked => exact hstep

theorem register_effects (uid : Int) (conn : Conn) (w : World) :
    effectsSince w (register uid conn w)
      = [Effect.lock] ++ (w.users.get uid).toList.map Effect.close ++ [Effect.unlock] := by
  rw [effectsSince, register_trace, List.drop_left]

theorem serve_trace (env : Env) (uid : Int) (conn : Conn) (reads : List ReadResult) (w : World) :
    ∃ es, Quiet es ∧
      (serve env uid conn reads w).trace
        = w.trace ++ (effectsSince w (register uid conn w) ++ es
            ++ (if (loop env uid reads (broadcastOnlineUsers env (register uid conn w))).1
                  = Flow.next then [] else [Effect.close conn])) := by
  have hloop := quietStep_trans _ _ _
    (quietStep_broadcastOnlineUsers env (register uid conn w))
    (quietStep_loop env uid reads (broadcastOnlineUsers env (register uid conn w)))
  obtain ⟨es, htrace, hquiet⟩ := hloop
  refine ⟨es, hquiet, ?_⟩
  have hreg : (register uid conn w).trace = w.trace ++ effectsSince w (register uid conn w) := by
    rw [register_effects, register_trace]
  unfold serve
  cases hres : loop env uid reads (broadcastOnlineUsers env (register uid conn w)) with
  | mk flow w3 =>
      rw [hres] at htrace
      simp only at htrace
      cases flow <;> simp [World.emit, htrace, hreg, hres]

/-- C14 as stated fails. User 1 is connected on connection 10 and a request
with `user_id=1` is upgraded to connection 11: the accept path calls `Close`
on connection 10 after `Lock` and before `Unlock`, so the connection closed
while the handler holds the lock is connection 10. -/
theorem evicted_connection_closed_under_lock :
    effectsSince sampleWorld
        (handleWebSocket sampleEnv ⟨some 11, [("user_id", "1")]⟩ [] sampleWorld)
      = [Effect.lock, Effect.close 10, Effect.unlock, Effect.rlock,
         Effect.write 11 (OutFrame.userList [⟨1, "alice", true⟩, ⟨2, "bob", true⟩]),
         Effect.write 20 (OutFrame.userList [⟨1, "alice", true⟩, ⟨2, "bob", true⟩]),
         Effect.runlock] ∧
    closesWhileLocked 0 (effectsSince sampleWorld
        (handleWebSocket sampleEnv ⟨some 11, [("user_id", "1")]⟩ [] sampleWorld)) = [10] ∧
    closesWhileLocked 0 (effectsSince sampleWorld
        (handleWebSocket sampleEnv ⟨some 11, [("user_id", "1")]⟩ [] sampleWorld)) ≠ [] := by
  decide

/-- C14, amended. In every run of the accept path from registration on
(lines 49 to 144, whatever the reads return), the connections closed while
the handler holds a lock on the registry are exactly the evicted previous
connection of the user id, if there was one: its `Close` is called between
`Lock` and `Unlock` of the registration. The only `Close` called while the
handler holds no lock is the deferred one on its own connection, once the
loop is left. -/
theorem close_under_lock_only_evicted (env : Env) (uid : Int) (conn : Conn)
    (reads : List ReadResult) (w : World) :
    closesWhileLocked 0 (effectsSince w (serve env uid conn reads w))
      = (w.users.get uid).toList ∧
    closesWhileUnlocked 0 (effectsSince w (serve env uid conn reads w))
      = (if (loop env uid reads (broadcastOnlineUsers env (register uid conn w))).1 = Flow.next
          then [] else [conn]) ∧
    effectsSince w (register uid conn w)
      = [Effect.lock] ++ (w.users.get uid).toList.map Effect.close ++ [Effect.unlock] := by
  obtain ⟨es, hquiet, htrace⟩ := serve_trace env uid conn reads w
  have hlocked := fun h => (closesWhileLocked_of_closesOf_nil h es hquiet.1).1
  have hunlocked := fun h => (closesWhileLocked_of_closesOf_nil h es hquiet.1).2
  have hheld := hquiet.2
  refine ⟨?_, ?_, register_effects uid conn w⟩
  · rw [effectsSince, htrace, List.drop_left, register_effects]
    cases w.users.get uid <;>
      by_cases hflow :
        (loop env uid reads (broadcastOnlineUsers env (register uid conn w))).1 = Flow.next <;>
      simp [closesWhileLocked, closesWhileLocked_append, heldAfter, heldAfter_append,
        hlocked, hheld, hflow]
  · rw [effectsSince, htrace, List.drop_left, register_effects]
    cases w.users.get uid <;>
      by_cases hflow :
        (loop env uid reads (broadcastOnlineUsers env (register uid conn w))).1 = Flow.next <;>
      simp [closesWhileUnlocked, closesWhileUnlocked_append, heldAfter, heldAfter_append,
        hunlocked, hheld, hflow]

/-- Witness of C14: user 1 reconnects on connection 11, sends a typing
notification and then disconnects. Connection 10 is closed under the lock,
connection 11 with no lock held. -/
theorem close_under_lock_only_evicted_witness :
    closesWhileLocked 0 (effectsSince sampleWorld (serve sampleEnv 1 11
        [ReadResult.frame ⟨"typing_status", JVal.obj typingFields⟩, ReadResult.error false]
        sampleWorld)) = [10] ∧
    closesWhileUnlocked 0 (effectsSince sampleWorld (serve sampleEnv 1 11
        [ReadResult.frame ⟨"typing_status", JVal.obj typingFields⟩, ReadResult.error false]
        sampleWorld)) = [11] :=
  ⟨(close_under_lock_only_evicted sampleEnv 1 11
      [ReadResult.frame ⟨"typing_status", JVal.obj typingFields⟩, ReadResult.error false]
      sampleWorld).1,
   (close_under_lock_only_evicted sampleEnv 1 11
      [ReadResult.frame ⟨"typing_status", JVal.obj typingFields⟩, ReadResult.error false]
      sampleWorld).2.1⟩

/-! ## The length check of `updateProfileHandler` (C15) -/

theorem length_le_utf8ByteSize_go (cs : List Char) :
    cs.length ≤ String.utf8ByteSize.go cs := by
  induction cs with
  | nil => simp [String.utf8ByteSize.go]
  | cons c rest ih =>
      have hpos := Char.utf8Size_pos c
      simp only [String.utf8ByteSize.go, List.length_cons]
      omega

/-- A string has at least as many bytes as characters. -/
theorem length_le_utf8ByteSize (s : String) : s.length ≤ s.utf8ByteSize := by
  cases s with
  | mk cs => exact length_le_utf8ByteSize_go cs

/-- For a decoded POST body the handler answers 400 without executing the
`UPDATE` when the profile thought has more than 30 bytes, and executes the
`UPDATE` once, with the decoded values, otherwise. -/
theorem updateProfileHandler_post (execOk : ProfileBody → Bool) (profile : ProfileBody) :
    (30 < profile.ProfileThought.utf8ByteSize →
      updateProfileHandler execOk "POST" (some profile)
        = ⟨400, "Profile thought must be 30 characters or less", []⟩) ∧
    (profile.ProfileThought.utf8ByteSize ≤ 30 →
      (updateProfileHandler execOk "POST" (some profile)).updates = [profile] ∧
      (updateProfileHandler execOk "POST" (some profile)).status
        = (if execOk profile then 200 else 500)) := by
  constructor
  · intro h
    simp [updateProfileHandler, h]
  · intro h
    have h2 : ¬ 30 < profile.ProfileThought.utf8ByteSize := by omega
    by_cases he : execOk profile = true <;> simp [updateProfileHandler, h2, he]

/-- A profile thought of more than 30 characters is rejected: this half of
the limit the message states is enforced. -/
theorem updateProfileHandler_rejects_long (execOk : ProfileBody → Bool) (profile : ProfileBody)
    (h : 30 < profile.ProfileThought.length) :
    updateProfileHandler execOk "POST" (some profile)
      = ⟨400, "Profile thought must be 30 characters or less", []⟩ :=
  (updateProfileHandler_post execOk profile).1
    (Nat.lt_of_lt_of_le h (length_le_utf8ByteSize profile.ProfileThought))

/-- C15 (evaluation at the failing input). A profile thought of sixteen
characters, each two bytes long in UTF-8: it has at most 30 characters, but
`len` counts its 32 bytes, so the handler answers 400 with the message about
30 characters and executes no `UPDATE`, although the datastore would accept
it. A thought of sixteen one-byte characters is accepted. -/
theorem profile_thought_limit_counts_bytes :
    sixteenAccents.length = 16 ∧
    sixteenAccents.utf8ByteSize = 32 ∧
    updateProfileHandler (fun _ => true) "POST" (some ⟨1, "pic.png", sixteenAccents⟩)
      = ⟨400, "Profile thought must be 30 characters or less", []⟩ ∧
    updateProfileHandler (fun _ => true) "POST" (some ⟨1, "pic.png", "eeeeeeeeeeeeeeee"⟩)
      = ⟨200, "", [⟨1, "pic.png", "eeeeeeeeeeeeeeee"⟩]⟩ := by
  decide

end Srco
